import Mathlib

/-!
# endlines: command line, per-file operations and accumulator of `src/main.c`

A shallow embedding of `main.c`.  Process termination through `exit(n)` is the
`Except.error n` result; calls to the helpers declared in `endlines.h`,
`walkers.h` and `file_operations.h` (whose bodies are not in `main.c`) take
their outcome from an explicit `Helpers` record and are recorded, in call
order, in a trace of `Event`s.
-/

namespace Endlines

/-! ## Types of `endlines.h` and `file_operations.h` -/

/-- Modelled from the spec: the `Convention` enum of `endlines.h` (section 3,
"one of none, cr, lf, crlf, mixed"), with the enumerator names `main.c` uses. -/
inductive Convention where
  | NO_CONVENTION
  | CR
  | LF
  | CRLF
  | MIXED
  deriving DecidableEq, Repr

/-- Modelled from the spec: the `FileOp_Status` enum of `file_operations.h`
(section 4.3, "Status values"), with the enumerator names `main.c` uses. -/
inductive FileOp_Status where
  | CAN_CONTINUE
  | DONE
  | SKIPPED_BINARY
  | FILEOP_ERROR
  deriving DecidableEq, Repr

/-- Modelled from the spec: the `Encoding` of a stream (section 3). -/
inductive Encoding where
  | single_byte
  | utf8_bom
  | utf16_le_bom
  | utf16_be_bom
  deriving DecidableEq, Repr

/-- Modelled from the spec: the `FileReport` struct of `endlines.h` (section 3):
the three counts, the two flags and the encoding. -/
structure FileReport where
  cr_count : Nat
  lf_count : Nat
  crlf_count : Nat
  contains_non_text_chars : Bool
  error_during_conversion : Bool
  encoding : Encoding
  deriving DecidableEq, Repr

/-- Modelled from the spec: `get_source_convention` of `endlines.h` (section 3):
"none if all counts are zero; the single nonzero one if exactly one is nonzero;
otherwise mixed". -/
def get_source_convention (r : FileReport) : Convention :=
  if r.cr_count = 0 ∧ r.lf_count = 0 ∧ r.crlf_count = 0 then Convention.NO_CONVENTION
  else if r.lf_count = 0 ∧ r.crlf_count = 0 then Convention.CR
  else if r.cr_count = 0 ∧ r.crlf_count = 0 then Convention.LF
  else if r.cr_count = 0 ∧ r.lf_count = 0 then Convention.CRLF
  else Convention.MIXED

/-- A `FILE*` handle: the two standard streams, the input file opened on a
path, and the temporary file opened on a path. -/
inductive Stream where
  | stdin
  | stdout
  | input (path : String)
  | temp (path : String)
  deriving DecidableEq, Repr

/-- The `ConversionParameters` struct handed to `convert_stream`; `outstream`
is `none` for a `NULL` output stream. -/
structure ConversionParameters where
  instream : Stream
  outstream : Option Stream
  dst_convention : Convention
  interrupt_if_not_like_dst_convention : Bool
  interrupt_if_non_text : Bool
  deriving DecidableEq, Repr

/-! ## Local types of `main.c` -/

/-- The `CommandLine` struct (`main.c`, lines 46-56). -/
structure CommandLine where
  convention : Convention
  quiet : Bool
  verbose : Bool
  binaries : Bool
  keepdate : Bool
  recurse : Bool
  process_hidden : Bool
  filenames : List String
  file_count : Nat
  deriving DecidableEq, Repr

deriving instance DecidableEq for Except

/-! ## Convention names (`main.c`, lines 77-101) -/

def CL_NAMES_COUNT : Nat := 11

/-- The table `cl_names`, in source order. -/
def cl_names : List (String × Convention) :=
  [ ("check", Convention.NO_CONVENTION),
    ("lf", Convention.LF),
    ("unix", Convention.LF),
    ("linux", Convention.LF),
    ("osx", Convention.LF),
    ("crlf", Convention.CRLF),
    ("win", Convention.CRLF),
    ("windows", Convention.CRLF),
    ("dos", Convention.CRLF),
    ("cr", Convention.CR),
    ("oldmac", Convention.CR) ]

/-- The loop of `read_convention_from_string` from index `i`: the first entry
at an index below `CL_NAMES_COUNT` whose name compares equal (`strcmp`) to
`name`; `entries` is the part of the table from index `i` on. -/
def read_convention_loop (name : String) : Nat → List (String × Convention) → Option Convention
  | _, [] => none
  | i, e :: rest =>
    if i < CL_NAMES_COUNT then
      if e.1 = name then some e.2 else read_convention_loop name (i + 1) rest
    else none

/-- The function `read_convention_from_string`: the convention of the first
matching table entry, or `exit(8)` when no entry matches. -/
def read_convention_from_string (name : String) : Except Nat Convention :=
  match read_convention_loop name 0 cl_names with
  | some c => Except.ok c
  | none => Except.error 8

/-! ## Parsing the command line (`main.c`, lines 186-230) -/

/-- The byte `s[0]` of a C string: its first character, or the terminating
NUL when the string is empty. -/
def first_char (s : String) : Char :=
  match s.data with
  | [] => Char.ofNat 0
  | c :: _ => c

/-- The initial value of `cmd_line_args`: the designated initialiser sets the
six flags, `filenames` and `file_count`; `convention`, which it does not name,
is zero-initialised (the first enumerator). -/
def CommandLine.initial : CommandLine :=
  { convention := Convention.NO_CONVENTION
    quiet := false, verbose := false, binaries := false, keepdate := false
    recurse := false, process_hidden := false
    filenames := [], file_count := 0 }

/-- One iteration of the `for` loop of `parse_cmd_line_args`, on `argv[i]`. -/
def parse_arg (argv1 : String) (i : Nat) (arg : String) (c : CommandLine) :
    Except Nat CommandLine :=
  if i > 1 ∧ first_char arg ≠ '-' then
    Except.ok { c with filenames := c.filenames ++ [arg], file_count := c.file_count + 1 }
  else if arg = "--help" then Except.error 1
  else if arg = "--version" then Except.error 1
  else if i = 1 then
    match read_convention_from_string argv1 with
    | Except.ok conv => Except.ok { c with convention := conv }
    | Except.error code => Except.error code
  else if arg = "-q" ∨ arg = "--quiet" then Except.ok { c with quiet := true }
  else if arg = "-v" ∨ arg = "--verbose" then Except.ok { c with verbose := true }
  else if arg = "-b" ∨ arg = "--binaries" then Except.ok { c with binaries := true }
  else if arg = "-k" ∨ arg = "--keepdate" then Except.ok { c with keepdate := true }
  else if arg = "-r" ∨ arg = "--recurse" then Except.ok { c with recurse := true }
  else if arg = "-h" ∨ arg = "--hidden" then Except.ok { c with process_hidden := true }
  else Except.error 4

/-- The `for` loop of `parse_cmd_line_args` from index `i`; `args` is
`argv[i..argc-1]`. -/
def parse_loop (argv1 : String) : Nat → List String → CommandLine → Except Nat CommandLine
  | _, [], c => Except.ok c
  | i, arg :: rest, c =>
    match parse_arg argv1 i arg c with
    | Except.ok c1 => parse_loop argv1 (i + 1) rest c1
    | Except.error code => Except.error code

/-- The function `parse_cmd_line_args(argc, argv)` with `argc = argv.length`.
`malloc_ok` is whether the `malloc` of the `filenames` array succeeded; when it
did not the process exits with code 1.  The final `free` of an empty
`filenames` array leaves `file_count = 0` and is not observable in the model. -/
def parse_cmd_line_args (malloc_ok : Bool) (argv : List String) : Except Nat CommandLine :=
  if malloc_ok = false then Except.error 1
  else parse_loop (argv.getD 1 "") 1 (argv.drop 1) CommandLine.initial

/-! ## Helpers of `file_operations.h`, `endlines.h` and `walkers.h`

Their bodies are not part of `main.c`.  A per-file operation takes the outcome
of each helper call from a `Helpers` record and lists the calls it makes. -/

/-- Modelled from the spec: the fields of `struct stat` the per-file operation
uses (section 4.3: the mode, and the `atime` and `mtime` of the pre-stat). -/
structure Stat where
  st_mode : Nat
  st_atime : Nat
  st_mtime : Nat
  deriving DecidableEq, Repr

/-- The `struct utimbuf` handed to `utime`. -/
structure Utimbuf where
  actime : Nat
  modtime : Nat
  deriving DecidableEq, Repr

/-- Modelled from the spec: `get_file_times` of `file_operations.h` (section
4.3, step 7: "the original atime and mtime from the pre-stat"). -/
def get_file_times (statinfo : Stat) : Utimbuf :=
  { actime := statinfo.st_atime, modtime := statinfo.st_mtime }

/-- The outcomes of the external calls one per-file operation can make:
the nanoseconds read by `clock_gettime`, the status returned by each file
helper, the report returned by `convert_stream` for given parameters, the error
code and the path produced by `make_filename_in_same_location`, and the
binary-extension predicate. -/
structure Helpers where
  clock_tv_nsec : Nat
  open_input_file_for_conversion : String → FileOp_Status
  open_input_file_for_dry_run : String → FileOp_Status
  convert_stream : ConversionParameters → FileReport
  make_filename_in_same_location : String → String → Int × String
  open_temporary_file : String → FileOp_Status
  move_temp_file_to_destination : String → String → Stat → FileOp_Status
  has_known_binary_file_extension : String → Bool

/-- An external call with an effect, with its arguments and its outcome. -/
inductive Event where
  | open_input_file_for_conversion (filename : String) (result : FileOp_Status)
  | open_input_file_for_dry_run (filename : String) (result : FileOp_Status)
  | convert_stream (p : ConversionParameters) (report : FileReport)
  | fclose (s : Stream)
  | rewind (s : Stream)
  | open_temporary_file (path : String) (result : FileOp_Status)
  | remove (path : String)
  | move_temp_file_to_destination (tmp filename : String) (statinfo : Stat)
      (result : FileOp_Status)
  | utime (filename : String) (times : Utimbuf)
  | fprintf_stderr (text : String)
  deriving DecidableEq, Repr

/-- What a per-file operation leaves: the status it returns, the caller's
`*file_report` after the call, and the external calls it made, in order. -/
structure FileOutcome where
  status : FileOp_Status
  file_report : FileReport
  trace : List Event
  deriving DecidableEq, Repr

/-! ## Converting or checking one file (`main.c`, lines 244-379) -/

/-- The function `initialize_session_tmp_filename`: `TMP_FILENAME_BASE` followed
by the decimal `tv_nsec % 9999999`; the macro `TMP_FILENAME_BASE` of
`file_operations.h` is a parameter. -/
def initialize_session_tmp_filename (tmp_filename_base : String) (tv_nsec : Nat) : String :=
  tmp_filename_base ++ toString (tv_nsec % 9999999)

/-- The static buffer `session_tmp_filename` after the test
`if(!strlen(session_tmp_filename))` at the top of `convert_one_file`. -/
def session_tmp_filename_after (tmp_filename_base : String) (tv_nsec : Nat)
    (session_tmp_filename : String) : String :=
  if session_tmp_filename.length = 0 then
    initialize_session_tmp_filename tmp_filename_base tv_nsec
  else session_tmp_filename

/-- The parameters of the pre-conversion pass. -/
def pre_conversion_parameters (in_stream : Stream) (cmd_line_args : CommandLine) :
    ConversionParameters :=
  { instream := in_stream
    outstream := none
    dst_convention := cmd_line_args.convention
    interrupt_if_not_like_dst_convention := true
    interrupt_if_non_text := !cmd_line_args.binaries }

/-- The function `pre_conversion_check`. -/
def pre_conversion_check (h : Helpers) (in_stream : Stream) (filename : String)
    (file_report : FileReport) (cmd_line_args : CommandLine) : FileOutcome :=
  let p := pre_conversion_parameters in_stream cmd_line_args
  let preliminary_report := h.convert_stream p
  let t := [Event.convert_stream p preliminary_report]
  if preliminary_report.error_during_conversion then
    { status := FileOp_Status.FILEOP_ERROR
      file_report := file_report
      trace := t ++ [Event.fprintf_stderr
        ("endlines : file access error during preliminary check of " ++ filename ++ "\n")] }
  else if preliminary_report.contains_non_text_chars && !cmd_line_args.binaries then
    { status := FileOp_Status.SKIPPED_BINARY, file_report := file_report, trace := t }
  else
    let src_convention := get_source_convention preliminary_report
    if src_convention = Convention.NO_CONVENTION ∨ src_convention = cmd_line_args.convention then
      { status := FileOp_Status.DONE, file_report := preliminary_report, trace := t }
    else
      { status := FileOp_Status.CAN_CONTINUE, file_report := file_report, trace := t }

/-- The parameters of the full pass of `convert_one_file`. -/
def full_conversion_parameters (in_stream out_stream : Stream) (cmd_line_args : CommandLine) :
    ConversionParameters :=
  { instream := in_stream
    outstream := some out_stream
    dst_convention := cmd_line_args.convention
    interrupt_if_not_like_dst_convention := false
    interrupt_if_non_text := !cmd_line_args.binaries }

/-- The function `convert_one_file`.  `TRY x; CATCH` returns the status of `x`
unless it is `CAN_CONTINUE`; `CATCH_CLOSE_IN` closes `in` before returning.
`session_tmp_filename` is the content of the static buffer on entry. -/
def convert_one_file (h : Helpers) (tmp_filename_base session_tmp_filename : String)
    (filename : String) (statinfo : Stat) (cmd_line_args : CommandLine)
    (file_report : FileReport) : FileOutcome :=
  let original_file_times := get_file_times statinfo
  let session := session_tmp_filename_after tmp_filename_base h.clock_tv_nsec session_tmp_filename
  let in_stream := Stream.input filename
  let s1 := h.open_input_file_for_conversion filename
  let t1 := [Event.open_input_file_for_conversion filename s1]
  if s1 ≠ FileOp_Status.CAN_CONTINUE then
    { status := s1, file_report := file_report, trace := t1 }
  else
    let pre := pre_conversion_check h in_stream filename file_report cmd_line_args
    let t2 := t1 ++ pre.trace
    if pre.status ≠ FileOp_Status.CAN_CONTINUE then
      { status := pre.status, file_report := pre.file_report
        trace := t2 ++ [Event.fclose in_stream] }
    else
      let t3 := t2 ++ [Event.rewind in_stream]
      let made := h.make_filename_in_same_location filename session
      let tmp_path_err := made.1
      let local_tmp_file_name := made.2
      if tmp_path_err ≠ 0 then
        { status := FileOp_Status.FILEOP_ERROR, file_report := pre.file_report
          trace := t3 ++ [Event.fclose in_stream] }
      else
        let out_stream := Stream.temp local_tmp_file_name
        let s4 := h.open_temporary_file local_tmp_file_name
        let t4 := t3 ++ [Event.open_temporary_file local_tmp_file_name s4]
        if s4 ≠ FileOp_Status.CAN_CONTINUE then
          { status := s4, file_report := pre.file_report
            trace := t4 ++ [Event.fclose in_stream] }
        else
          let p := full_conversion_parameters in_stream out_stream cmd_line_args
          let report := h.convert_stream p
          let t5 := t4 ++ [Event.convert_stream p report, Event.fclose in_stream,
            Event.fclose out_stream]
          if report.error_during_conversion then
            { status := FileOp_Status.FILEOP_ERROR, file_report := pre.file_report
              trace := t5 ++ [Event.fprintf_stderr
                ("endlines : file access error during conversion of " ++ filename ++ "\n")] }
          else if report.contains_non_text_chars && !cmd_line_args.binaries then
            { status := FileOp_Status.SKIPPED_BINARY, file_report := pre.file_report
              trace := t5 ++ [Event.remove local_tmp_file_name] }
          else
            let s6 := h.move_temp_file_to_destination local_tmp_file_name filename statinfo
            let t6 := t5 ++
              [Event.move_temp_file_to_destination local_tmp_file_name filename statinfo s6]
            if s6 ≠ FileOp_Status.CAN_CONTINUE then
              { status := s6, file_report := pre.file_report, trace := t6 }
            else
              let t7 := if cmd_line_args.keepdate then
                  t6 ++ [Event.utime filename original_file_times]
                else t6
              { status := FileOp_Status.DONE, file_report := report, trace := t7 }

/-- The parameters of the pass of `check_one_file`. -/
def check_parameters (in_stream : Stream) (cmd_line_args : CommandLine) :
    ConversionParameters :=
  { instream := in_stream
    outstream := none
    dst_convention := Convention.NO_CONVENTION
    interrupt_if_not_like_dst_convention := false
    interrupt_if_non_text := !cmd_line_args.binaries }

/-- The function `check_one_file`. -/
def check_one_file (h : Helpers) (filename : String) (cmd_line_args : CommandLine)
    (file_report : FileReport) : FileOutcome :=
  let in_stream := Stream.input filename
  let s1 := h.open_input_file_for_dry_run filename
  let t1 := [Event.open_input_file_for_dry_run filename s1]
  if s1 ≠ FileOp_Status.CAN_CONTINUE then
    { status := s1, file_report := file_report, trace := t1 }
  else
    let p := check_parameters in_stream cmd_line_args
    let report := h.convert_stream p
    let t2 := t1 ++ [Event.convert_stream p report, Event.fclose in_stream]
    if report.error_during_conversion then
      { status := FileOp_Status.FILEOP_ERROR, file_report := file_report
        trace := t2 ++ [Event.fprintf_stderr
          ("endlines : file access error during check of " ++ filename ++ "\n")] }
    else if report.contains_non_text_chars && !cmd_line_args.binaries then
      { status := FileOp_Status.SKIPPED_BINARY, file_report := file_report, trace := t2 }
    else
      { status := FileOp_Status.DONE, file_report := report, trace := t2 }

/-! ## Handling a conversion batch (`main.c`, lines 401-532) -/

/-- The table `convention_display_names` as filled by
`setup_conventions_display_names`. -/
def convention_display_names : Convention → String
  | Convention.NO_CONVENTION => "No line ending"
  | Convention.CR => "Legacy Mac (CR)"
  | Convention.LF => "Unix (LF)"
  | Convention.CRLF => "Windows (CR-LF)"
  | Convention.MIXED => "Mixed endings"

/-- The table `convention_short_display_names` as filled by
`setup_conventions_display_names`. -/
def convention_short_display_names : Convention → String
  | Convention.NO_CONVENTION => "None"
  | Convention.CR => "CR"
  | Convention.LF => "LF"
  | Convention.CRLF => "CRLF"
  | Convention.MIXED => "Mixed"

/-- The function `print_verbose_file_outcome`: the lines it writes to stderr. -/
def print_verbose_file_outcome (filename : String) (outcome : FileOp_Status)
    (source_convention : Convention) : List Event :=
  match outcome with
  | FileOp_Status.DONE =>
    [Event.fprintf_stderr ("endlines : " ++ convention_short_display_names source_convention ++
      " -- " ++ filename ++ "\n")]
  | FileOp_Status.SKIPPED_BINARY =>
    [Event.fprintf_stderr ("endlines : skipped probable binary " ++ filename ++ "\n")]
  | _ => []

/-- The value a C `int` (32 bits, two's complement) holds after a computation
whose mathematical result is `x`: `x` reduced modulo `2^32` into the range from
`-2147483648` to `2147483647`. -/
def int_wrap (x : Int) : Int := (x + 2147483648) % 4294967296 - 2147483648

/-- The `Accumulator` struct.  The arrays `outcome_totals` and
`convention_totals`, indexed by the enumerators of `FileOp_Status` and of
`Convention`, are functions on the enumerations; each counter is a C `int`. -/
structure Accumulator where
  outcome_totals : FileOp_Status → Int
  convention_totals : Convention → Int
  cmd_line_args : CommandLine

/-- The statement `++ a[k]` on an array of `int` indexed by an enumeration:
past `INT_MAX` the counter wraps. -/
def increment {α : Type} [DecidableEq α] (a : α → Int) (k : α) : α → Int :=
  fun j => if j = k then int_wrap (a j + 1) else a j

/-- The function `make_accumulator`. -/
def make_accumulator (cmd_line_args : CommandLine) : Accumulator :=
  { outcome_totals := fun _ => 0
    convention_totals := fun _ => 0
    cmd_line_args := cmd_line_args }

/-- One call of `walkers_callback` by the walker: the file name, its stat, the
outcomes of the helper calls made for that file, and the content of the
callback's uninitialised local `file_report`. -/
structure Invocation where
  helpers : Helpers
  filename : String
  statinfo : Stat
  file_report : FileReport

/-- The state a batch carries from file to file: the accumulator, the static
buffer `session_tmp_filename` of `convert_one_file`, and the external calls made
so far. -/
structure Run where
  accumulator : Accumulator
  session_tmp_filename : String
  trace : List Event

/-- The per-file operation `walkers_callback` selects, and the static buffer
after it: a skip on a known binary extension (consulted only when `binaries`
is off), `check_one_file` for the check action, `convert_one_file` otherwise. -/
def walkers_callback_outcome (tmp_filename_base : String) (inv : Invocation) (run : Run) :
    FileOutcome × String :=
  let cmd_line_args := run.accumulator.cmd_line_args
  if !cmd_line_args.binaries && inv.helpers.has_known_binary_file_extension inv.filename then
    ({ status := FileOp_Status.SKIPPED_BINARY, file_report := inv.file_report, trace := [] },
      run.session_tmp_filename)
  else if cmd_line_args.convention = Convention.NO_CONVENTION then
    (check_one_file inv.helpers inv.filename cmd_line_args inv.file_report,
      run.session_tmp_filename)
  else
    (convert_one_file inv.helpers tmp_filename_base run.session_tmp_filename inv.filename
        inv.statinfo cmd_line_args inv.file_report,
      session_tmp_filename_after tmp_filename_base inv.helpers.clock_tv_nsec
        run.session_tmp_filename)

/-- The function `walkers_callback`. -/
def walkers_callback (tmp_filename_base : String) (inv : Invocation) (run : Run) : Run :=
  let cmd_line_args := run.accumulator.cmd_line_args
  let result := walkers_callback_outcome tmp_filename_base inv run
  let outcome := result.1.status
  let source_convention := get_source_convention result.1.file_report
  let outcome_totals := increment run.accumulator.outcome_totals outcome
  let convention_totals :=
    if outcome = FileOp_Status.DONE then
      increment run.accumulator.convention_totals source_convention
    else run.accumulator.convention_totals
  let printed :=
    if cmd_line_args.verbose then
      print_verbose_file_outcome inv.filename outcome source_convention
    else []
  { accumulator :=
      { outcome_totals := outcome_totals
        convention_totals := convention_totals
        cmd_line_args := cmd_line_args }
    session_tmp_filename := result.2
    trace := run.trace ++ result.1.trace ++ printed }

/-- A finite sequence of `walkers_callback` invocations, as made by the walker
(`walk_filenames` of `walkers.h`) in `convert_files`. -/
def walkers_callbacks (tmp_filename_base : String) : List Invocation → Run → Run
  | [], run => run
  | inv :: rest, run =>
    walkers_callbacks tmp_filename_base rest (walkers_callback tmp_filename_base inv run)

/-- The state in which `convert_files` starts the walk: the accumulator of
`make_accumulator`, and the static buffer as left by earlier calls. -/
def initial_run (cmd_line_args : CommandLine) (session_tmp_filename : String) : Run :=
  { accumulator := make_accumulator cmd_line_args
    session_tmp_filename := session_tmp_filename
    trace := [] }

/-- The `Outcome_totals_for_display` struct handed to `print_outcome_totals`;
its counts are C `int`s. -/
structure Outcome_totals_for_display where
  dry_run : Bool
  count_by_convention : Convention → Int
  done : Int
  directories : Int
  binaries : Int
  hidden : Int
  errors : Int

/-- Modelled from the spec: the counters of the `Walk_tracker` of `walkers.h`
that `convert_files` reads after the walk (section 7, walker errors). -/
structure Walk_tracker where
  skipped_directories_count : Int
  skipped_hidden_files_count : Int
  read_errors_count : Int

/-- The function `convert_files`, for a walk (`walk_filenames` of `walkers.h`)
that makes the callback invocations `invs` and leaves the counters `tracker`:
the state after the walk, and the totals handed to `print_outcome_totals`
(`none` when `quiet` is set). -/
def convert_files (tmp_filename_base session_tmp_filename : String)
    (cmd_line_args : CommandLine) (invs : List Invocation) (tracker : Walk_tracker) :
    Run × Option Outcome_totals_for_display :=
  let announced :=
    if !cmd_line_args.quiet then
      if cmd_line_args.convention = Convention.NO_CONVENTION then
        [Event.fprintf_stderr "endlines : dry run, scanning files\n"]
      else
        [Event.fprintf_stderr ("endlines : converting files to " ++
          convention_display_names cmd_line_args.convention ++ "\n")]
    else []
  let start : Run := { initial_run cmd_line_args session_tmp_filename with trace := announced }
  let run := walkers_callbacks tmp_filename_base invs start
  let accumulator := run.accumulator
  let totals :=
    if !cmd_line_args.quiet then
      some
        { dry_run := decide (cmd_line_args.convention = Convention.NO_CONVENTION)
          count_by_convention := accumulator.convention_totals
          done := accumulator.outcome_totals FileOp_Status.DONE
          directories := tracker.skipped_directories_count
          binaries := accumulator.outcome_totals FileOp_Status.SKIPPED_BINARY
          hidden := tracker.skipped_hidden_files_count
          errors := int_wrap (accumulator.outcome_totals FileOp_Status.FILEOP_ERROR +
            tracker.read_errors_count) }
    else none
  (run, totals)

/-! ## Entry point (`main.c`, lines 540-569) -/

/-- What `main` does: exit with a code, hand the command line to
`convert_files` and return 0, or (streaming mode) write the given lines to
stderr, call `convert_stream` once with the given parameters and return 0. -/
inductive MainOutcome where
  | exit (code : Nat)
  | convert_files (cmd_line_args : CommandLine)
  | convert_stream (stderr : List String) (p : ConversionParameters)
  deriving DecidableEq, Repr

/-- The function `main(argc, argv)` with `argc = argv.length`.  The initialiser
of the streaming parameters does not name
`interrupt_if_not_like_dst_convention`, which is zero-initialised. -/
def main (malloc_ok : Bool) (argv : List String) : MainOutcome :=
  if argv.length ≤ 1 then MainOutcome.exit 1
  else
    match parse_cmd_line_args malloc_ok argv with
    | Except.error code => MainOutcome.exit code
    | Except.ok cmd_line_args =>
      if cmd_line_args.file_count > 0 then MainOutcome.convert_files cmd_line_args
      else
        let printed :=
          if !cmd_line_args.quiet then
            if cmd_line_args.convention = Convention.NO_CONVENTION then
              ["endlines : dry run, scanning standard input\n"]
            else
              ["Converting standard input to " ++
                convention_display_names cmd_line_args.convention ++ "\n"]
          else []
        MainOutcome.convert_stream printed
          { instream := Stream.stdin
            outstream := some Stream.stdout
            dst_convention := cmd_line_args.convention
            interrupt_if_not_like_dst_convention := false
            interrupt_if_non_text := false }

/-! ## Reading a trace -/

/-- Modelled from the spec: the paths an external call may create, write,
remove or replace (sections 3 and 4.3: the temporary file is opened for writing,
the full pass writes into it, it is unlinked or renamed onto the target; `utime`
sets the target's times).  A move that reports failure leaves the target
untouched. -/
def paths_touched : Event → List String
  | Event.open_temporary_file path _ => [path]
  | Event.convert_stream p _ =>
    match p.outstream with
    | some (Stream.temp path) => [path]
    | some (Stream.input path) => [path]
    | _ => []
  | Event.remove path => [path]
  | Event.move_temp_file_to_destination tmp filename _ result =>
    if result = FileOp_Status.CAN_CONTINUE then [tmp, filename] else [tmp]
  | Event.utime filename _ => [filename]
  | _ => []

/-- Modelled from the spec: whether the temporary file `path` exists after a
trace, given whether it existed before (section 3, lifecycles: "temp file exists
between open_temporary_file and either rename or unlink"). -/
def temp_file_exists (path : String) : List Event → Bool → Bool
  | [], b => b
  | Event.open_temporary_file p FileOp_Status.CAN_CONTINUE :: rest, b =>
    temp_file_exists path rest (if p = path then true else b)
  | Event.remove p :: rest, b =>
    temp_file_exists path rest (if p = path then false else b)
  | Event.move_temp_file_to_destination p _ _ FileOp_Status.CAN_CONTINUE :: rest, b =>
    temp_file_exists path rest (if p = path then false else b)
  | _ :: rest, b => temp_file_exists path rest b

/-- Whether an event is a call of `utime`. -/
def is_utime : Event → Bool
  | Event.utime _ _ => true
  | _ => false

/-- Whether an event is a call of `move_temp_file_to_destination` that has
succeeded. -/
def is_successful_move : Event → Bool
  | Event.move_temp_file_to_destination _ _ _ FileOp_Status.CAN_CONTINUE => true
  | _ => false

/-! ## Sample inputs -/

/-- A report with the given counts and flags, single-byte encoding. -/
def sample_report (cr lf crlf : Nat) (non_text error : Bool) : FileReport :=
  { cr_count := cr, lf_count := lf, crlf_count := crlf
    contains_non_text_chars := non_text, error_during_conversion := error
    encoding := Encoding.single_byte }

/-- Helper outcomes in which every file helper succeeds, the temporary path is
`tmp`, the pre-conversion pass (no output stream) reports `pre` and a pass with
an output stream reports `full`. -/
def sample_helpers (tmp : String) (pre full : FileReport) : Helpers :=
  { clock_tv_nsec := 123456789
    open_input_file_for_conversion := fun _ => FileOp_Status.CAN_CONTINUE
    open_input_file_for_dry_run := fun _ => FileOp_Status.CAN_CONTINUE
    convert_stream := fun p => if p.outstream = none then pre else full
    make_filename_in_same_location := fun _ _ => (0, tmp)
    open_temporary_file := fun _ => FileOp_Status.CAN_CONTINUE
    move_temp_file_to_destination := fun _ _ _ => FileOp_Status.CAN_CONTINUE
    has_known_binary_file_extension := fun _ => false }

/-- A command line with the given target and the given `binaries` and
`keepdate` flags, one path, every other flag off. -/
def sample_command_line (target : Convention) (binaries keepdate : Bool) : CommandLine :=
  { convention := target
    quiet := false, verbose := false, binaries := binaries, keepdate := keepdate
    recurse := false, process_hidden := false
    filenames := ["a.txt"], file_count := 1 }

/-- A pre-stat. -/
def sample_stat : Stat := { st_mode := 420, st_atime := 1000, st_mtime := 900 }

/-- The twelve option spellings that set a flag. -/
def flag_spellings : List String :=
  ["-q", "--quiet", "-v", "--verbose", "-b", "--binaries", "-h", "--hidden",
   "-k", "--keepdate", "-r", "--recurse"]

/-! ## Theorems -/

open Convention FileOp_Status

/-- The table lookup of `read_convention_from_string` as one case analysis on
the name. -/
theorem read_convention_from_string_eq (s : String) :
    read_convention_from_string s =
      (if s = "check" then Except.ok NO_CONVENTION
       else if s = "lf" ∨ s = "unix" ∨ s = "linux" ∨ s = "osx" then Except.ok LF
       else if s = "crlf" ∨ s = "windows" ∨ s = "win" ∨ s = "dos" then Except.ok CRLF
       else if s = "cr" ∨ s = "oldmac" then Except.ok CR
       else Except.error 8) := by
  simp only [read_convention_from_string, cl_names, read_convention_loop, CL_NAMES_COUNT]
  by_cases h0 : s = "check"
  · subst h0; decide
  by_cases h1 : s = "lf"
  · subst h1; decide
  by_cases h2 : s = "unix"
  · subst h2; decide
  by_cases h3 : s = "linux"
  · subst h3; decide
  by_cases h4 : s = "osx"
  · subst h4; decide
  by_cases h5 : s = "crlf"
  · subst h5; decide
  by_cases h6 : s = "win"
  · subst h6; decide
  by_cases h7 : s = "windows"
  · subst h7; decide
  by_cases h8 : s = "dos"
  · subst h8; decide
  by_cases h9 : s = "cr"
  · subst h9; decide
  by_cases h10 : s = "oldmac"
  · subst h10; decide
  simp [h0, h1, h2, h3, h4, h5, h6, h7, h8, h9, h10, Ne.symm h0, Ne.symm h1, Ne.symm h2,
    Ne.symm h3, Ne.symm h4, Ne.symm h5, Ne.symm h6, Ne.symm h7, Ne.symm h8, Ne.symm h9,
    Ne.symm h10]

/-- C1: `read_convention_from_string` follows the action table. It returns
`NO_CONVENTION` exactly for "check", `LF` exactly for "lf", "unix", "linux",
"osx", `CRLF` exactly for "crlf", "windows", "win", "dos", `CR` exactly for
"cr", "oldmac"; for every other string it exits, and the exit code is always 8;
it never returns `MIXED`.  The empty string, a name in another letter case and
the option-like "-q" are among the strings that exit with code 8. -/
theorem read_convention_from_string_table (s : String) :
    (read_convention_from_string s = Except.ok NO_CONVENTION ↔ s = "check") ∧
    (read_convention_from_string s = Except.ok LF ↔
      s = "lf" ∨ s = "unix" ∨ s = "linux" ∨ s = "osx") ∧
    (read_convention_from_string s = Except.ok CRLF ↔
      s = "crlf" ∨ s = "windows" ∨ s = "win" ∨ s = "dos") ∧
    (read_convention_from_string s = Except.ok CR ↔ s = "cr" ∨ s = "oldmac") ∧
    (read_convention_from_string s = Except.error 8 ↔
      ¬ (s = "check" ∨ s = "lf" ∨ s = "unix" ∨ s = "linux" ∨ s = "osx" ∨ s = "crlf" ∨
         s = "windows" ∨ s = "win" ∨ s = "dos" ∨ s = "cr" ∨ s = "oldmac")) ∧
    (∀ code, read_convention_from_string s = Except.error code → code = 8) ∧
    read_convention_from_string s ≠ Except.ok MIXED ∧
    read_convention_from_string "" = Except.error 8 ∧
    read_convention_from_string "LF" = Except.error 8 ∧
    read_convention_from_string "Check" = Except.error 8 ∧
    read_convention_from_string "-q" = Except.error 8 := by
  refine ⟨?_, ?_, ?_, ?_, ?_, ?_, ?_, by decide, by decide, by decide, by decide⟩ <;>
    rw [read_convention_from_string_eq] <;> split_ifs <;> aesop

/-- One loop iteration at an index of at least 2 on a path argument. -/
theorem parse_arg_path (argv1 : String) (i : Nat) (a : String) (c : CommandLine)
    (hi : 2 ≤ i) (ha : first_char a ≠ '-') :
    parse_arg argv1 i a c =
      Except.ok { c with filenames := c.filenames ++ [a], file_count := c.file_count + 1 } := by
  have : i > 1 := hi
  simp [parse_arg, this, ha]

/-- Every flag option starts with '-'. -/
theorem first_char_flag (a : String) (h : a ∈ flag_spellings) : first_char a = '-' := by
  simp only [flag_spellings, List.mem_cons, List.mem_singleton, List.not_mem_nil, or_false] at h
  rcases h with h | h | h | h | h | h | h | h | h | h | h | h <;> subst h <;> decide

/-- One loop iteration at an index of at least 2 on one of the flag options. -/
theorem parse_arg_flag (argv1 : String) (i : Nat) (a : String) (c : CommandLine)
    (hi : 2 ≤ i) (h : a ∈ flag_spellings) :
    parse_arg argv1 i a c = Except.ok
      { c with
        quiet := c.quiet || decide ("-q" = a ∨ "--quiet" = a)
        verbose := c.verbose || decide ("-v" = a ∨ "--verbose" = a)
        binaries := c.binaries || decide ("-b" = a ∨ "--binaries" = a)
        keepdate := c.keepdate || decide ("-k" = a ∨ "--keepdate" = a)
        recurse := c.recurse || decide ("-r" = a ∨ "--recurse" = a)
        process_hidden := c.process_hidden || decide ("-h" = a ∨ "--hidden" = a) } := by
  have h1 : ¬ i = 1 := by omega
  simp only [flag_spellings, List.mem_cons, List.mem_singleton, List.not_mem_nil, or_false] at h
  rcases h with h | h | h | h | h | h | h | h | h | h | h | h <;> subst h <;>
    simp [parse_arg, h1, first_char]

/-- The loop from an index of at least 2 over flag options and path arguments:
it does not exit, keeps the target, sets each flag met, and appends the path
arguments in order. -/
theorem parse_loop_options (argv1 : String) (args : List String) :
    ∀ (i : Nat) (c : CommandLine), 2 ≤ i →
      (∀ a ∈ args, a ∈ flag_spellings ∨ first_char a ≠ '-') →
      ∃ c1, parse_loop argv1 i args c = Except.ok c1 ∧
        c1.convention = c.convention ∧
        (c1.quiet = true ↔ c.quiet = true ∨ "-q" ∈ args ∨ "--quiet" ∈ args) ∧
        (c1.verbose = true ↔ c.verbose = true ∨ "-v" ∈ args ∨ "--verbose" ∈ args) ∧
        (c1.binaries = true ↔ c.binaries = true ∨ "-b" ∈ args ∨ "--binaries" ∈ args) ∧
        (c1.process_hidden = true ↔ c.process_hidden = true ∨ "-h" ∈ args ∨ "--hidden" ∈ args) ∧
        (c1.keepdate = true ↔ c.keepdate = true ∨ "-k" ∈ args ∨ "--keepdate" ∈ args) ∧
        (c1.recurse = true ↔ c.recurse = true ∨ "-r" ∈ args ∨ "--recurse" ∈ args) ∧
        c1.filenames = c.filenames ++ args.filter (fun a => decide (first_char a ≠ '-')) ∧
        c1.file_count = c.file_count + (args.filter (fun a => decide (first_char a ≠ '-'))).length := by
  induction args with
  | nil => intro i c _ _; exact ⟨c, by simp [parse_loop]⟩
  | cons a rest ih =>
    intro i c hi hargs
    have hrest : ∀ b ∈ rest, b ∈ flag_spellings ∨ first_char b ≠ '-' :=
      fun b hb => hargs b (List.mem_cons_of_mem a hb)
    have hi1 : 2 ≤ i + 1 := by omega
    by_cases ha : first_char a ≠ '-'
    · obtain ⟨c1, h1, h2⟩ := ih (i + 1)
        { c with filenames := c.filenames ++ [a], file_count := c.file_count + 1 } hi1 hrest
      refine ⟨c1, ?_, ?_⟩
      · simp only [parse_loop, parse_arg_path argv1 i a c hi ha]; exact h1
      · have hne : ∀ s ∈ flag_spellings, ¬ s = a := by
          intro s hs hsa; subst hsa; exact ha (first_char_flag s hs)
        simp only [flag_spellings, List.forall_mem_cons, List.mem_cons] at hne
        simp [h2, hne, ha, List.filter_cons]
        omega
    · have hfl : a ∈ flag_spellings := (hargs a (List.mem_cons_self a rest)).resolve_right ha
      obtain ⟨c1, h1, h2⟩ := ih (i + 1) _ hi1 hrest
      refine ⟨c1, ?_, ?_⟩
      · simp only [parse_loop, parse_arg_flag argv1 i a c hi hfl]; exact h1
      · have hd : first_char a = '-' := first_char_flag a hfl
        simp [h2, hd, List.filter_cons, or_assoc]
        clear h2 h1 ih hargs hrest
        refine ⟨?_, ?_, ?_, ?_, ?_, ?_⟩ <;> tauto

/-- The loop over a concatenation: the second part runs from where the first
stopped, when the first part did not exit. -/
theorem parse_loop_append (argv1 : String) (l1 l2 : List String) :
    ∀ (i : Nat) (c c1 : CommandLine), parse_loop argv1 i l1 c = Except.ok c1 →
      parse_loop argv1 i (l1 ++ l2) c = parse_loop argv1 (i + l1.length) l2 c1 := by
  induction l1 with
  | nil => intro i c c1 h; simp [parse_loop] at h; simp [h]
  | cons a rest ih =>
    intro i c c1 h
    simp only [parse_loop, List.cons_append] at h ⊢
    cases hstep : parse_arg argv1 i a c with
    | error code => simp [hstep] at h
    | ok c2 =>
      simp only [hstep] at h ⊢
      have e := ih (i + 1) c2 c1 h
      simp only [List.append_eq, List.length_cons] at e ⊢
      rw [e, Nat.add_assoc, Nat.add_comm 1]

/-- A known action name is mapped to a convention. -/
theorem read_convention_from_string_known (action : String)
    (h : action ∈ ["check", "lf", "unix", "linux", "osx", "crlf", "windows", "win", "dos",
      "cr", "oldmac"]) :
    ∃ conv, read_convention_from_string action = Except.ok conv ∧
      action ≠ "--help" ∧ action ≠ "--version" := by
  simp only [List.mem_cons, List.mem_singleton, List.not_mem_nil, or_false] at h
  rcases h with h | h | h | h | h | h | h | h | h | h | h <;> subst h <;>
    exact ⟨_, rfl, by decide, by decide⟩

/-- The first loop iteration, on a known action name. -/
theorem parse_arg_action (action : String) (c : CommandLine) (conv : Convention)
    (h : read_convention_from_string action = Except.ok conv)
    (h1 : action ≠ "--help") (h2 : action ≠ "--version") :
    parse_arg action 1 action c = Except.ok { c with convention := conv } := by
  simp [parse_arg, h, h1, h2]

/-- One loop iteration at an index of at least 2 on an argument that starts
with '-' and is not a recognised option. -/
theorem parse_arg_unknown (argv1 : String) (i : Nat) (a : String) (c : CommandLine)
    (hi : 2 ≤ i) (hd : first_char a = '-')
    (h : a ∉ ["-q", "--quiet", "-v", "--verbose", "-b", "--binaries", "-h", "--hidden",
      "-k", "--keepdate", "-r", "--recurse", "--help", "--version"]) :
    parse_arg argv1 i a c = Except.error 4 := by
  have h1 : ¬ i = 1 := by omega
  simp only [List.mem_cons, List.mem_singleton, List.not_mem_nil, or_false, not_or] at h
  simp [parse_arg, hd, h1, h]

/-- C3: for an argument vector `prog :: action :: (before ++ bad :: after)` with
a known action name, where `bad` starts with '-' and is not a recognised
option, no argument of `before` is such an argument (so `bad` is the first one)
and neither `--help` nor `--version` occurs in `before`, `parse_cmd_line_args`
(the `filenames` array having been allocated) does not return a `CommandLine`:
it exits with code 4. -/
theorem parse_cmd_line_args_unknown_option (prog action bad : String)
    (before after : List String)
    (haction : action ∈ ["check", "lf", "unix", "linux", "osx", "crlf", "windows", "win",
      "dos", "cr", "oldmac"])
    (hdash : first_char bad = '-')
    (hbad : bad ∉ ["-q", "--quiet", "-v", "--verbose", "-b", "--binaries", "-h", "--hidden",
      "-k", "--keepdate", "-r", "--recurse", "--help", "--version"])
    (hfirst : ∀ a ∈ before, ¬ (first_char a = '-' ∧
      a ∉ ["-q", "--quiet", "-v", "--verbose", "-b", "--binaries", "-h", "--hidden",
        "-k", "--keepdate", "-r", "--recurse", "--help", "--version"]))
    (hhelp : "--help" ∉ before) (hversion : "--version" ∉ before) :
    parse_cmd_line_args true (prog :: action :: (before ++ bad :: after)) = Except.error 4 := by
  obtain ⟨conv, hconv, hh, hv⟩ := read_convention_from_string_known action haction
  have hbefore : ∀ a ∈ before, a ∈ flag_spellings ∨ first_char a ≠ '-' := by
    intro a ha
    by_cases hd : first_char a = '-'
    · left
      have hrec := hfirst a ha
      simp only [hd, true_and, not_not] at hrec
      have h1 : a ≠ "--help" := fun e => hhelp (e ▸ ha)
      have h2 : a ≠ "--version" := fun e => hversion (e ▸ ha)
      simp only [List.mem_cons, List.mem_singleton, List.not_mem_nil, or_false] at hrec
      simp only [flag_spellings, List.mem_cons, List.mem_singleton, List.not_mem_nil, or_false]
      tauto
    · exact Or.inr hd
  obtain ⟨c1, hloop, -⟩ :=
    parse_loop_options action before 2 { CommandLine.initial with convention := conv }
      (Nat.le_refl 2) hbefore
  simp only [parse_cmd_line_args, List.getD_cons_succ, List.getD_cons_zero, List.drop_succ_cons,
    List.drop_zero, parse_loop, parse_arg_action action _ conv hconv hh hv]
  have e := parse_loop_append action before (bad :: after) 2 _ c1 hloop
  simp only [Bool.true_eq_false, if_false]
  rw [e]
  simp only [parse_loop, parse_arg_unknown action (2 + before.length) bad c1 (by omega) hdash hbad]

/-- C3 at a concrete input: `endlines crlf -q notes.txt --hidden -x --help b`. -/
theorem parse_cmd_line_args_unknown_option_witness :
    parse_cmd_line_args true
      ("endlines" :: "crlf" :: (["-q", "notes.txt", "--hidden"] ++ "-x" :: ["--help", "b"])) =
      Except.error 4 :=
  parse_cmd_line_args_unknown_option "endlines" "crlf" "-x" ["-q", "notes.txt", "--hidden"]
    ["--help", "b"] (by decide) (by decide) (by decide) (by decide) (by decide) (by decide)

/-- The function `read_convention_from_string` never returns `MIXED`. -/
theorem read_convention_from_string_ne_mixed (s : String) (c : Convention)
    (h : read_convention_from_string s = Except.ok c) : c ≠ MIXED := by
  rw [read_convention_from_string_eq] at h
  split_ifs at h <;> (cases h; decide)

/-- One loop iteration leaves the target as it was or sets it to the value
`read_convention_from_string` returns for `argv[1]`. -/
theorem parse_arg_convention (argv1 : String) (i : Nat) (a : String) (c c1 : CommandLine)
    (h : parse_arg argv1 i a c = Except.ok c1) :
    c1.convention = c.convention ∨
      read_convention_from_string argv1 = Except.ok c1.convention := by
  unfold parse_arg at h
  by_cases h1 : i > 1 ∧ first_char a ≠ '-'
  · rw [if_pos h1, Except.ok.injEq] at h; subst h; exact Or.inl rfl
  rw [if_neg h1] at h
  by_cases h2 : a = "--help"
  · rw [if_pos h2] at h; exact absurd h (by simp)
  rw [if_neg h2] at h
  by_cases h3 : a = "--version"
  · rw [if_pos h3] at h; exact absurd h (by simp)
  rw [if_neg h3] at h
  by_cases h4 : i = 1
  · rw [if_pos h4] at h
    cases hr : read_convention_from_string argv1 with
    | ok conv => simp only [hr, Except.ok.injEq] at h; subst h; exact Or.inr rfl
    | error code => simp only [hr] at h; exact absurd h (by simp)
  rw [if_neg h4] at h
  by_cases h5 : a = "-q" ∨ a = "--quiet"
  · rw [if_pos h5, Except.ok.injEq] at h; subst h; exact Or.inl rfl
  rw [if_neg h5] at h
  by_cases h6 : a = "-v" ∨ a = "--verbose"
  · rw [if_pos h6, Except.ok.injEq] at h; subst h; exact Or.inl rfl
  rw [if_neg h6] at h
  by_cases h7 : a = "-b" ∨ a = "--binaries"
  · rw [if_pos h7, Except.ok.injEq] at h; subst h; exact Or.inl rfl
  rw [if_neg h7] at h
  by_cases h8 : a = "-k" ∨ a = "--keepdate"
  · rw [if_pos h8, Except.ok.injEq] at h; subst h; exact Or.inl rfl
  rw [if_neg h8] at h
  by_cases h9 : a = "-r" ∨ a = "--recurse"
  · rw [if_pos h9, Except.ok.injEq] at h; subst h; exact Or.inl rfl
  rw [if_neg h9] at h
  by_cases h10 : a = "-h" ∨ a = "--hidden"
  · rw [if_pos h10, Except.ok.injEq] at h; subst h; exact Or.inl rfl
  rw [if_neg h10] at h
  exact absurd h (by simp)

/-- The loop never leaves `MIXED` as the target when it did not start with it. -/
theorem parse_loop_convention (argv1 : String) (args : List String) :
    ∀ (i : Nat) (c c1 : CommandLine), c.convention ≠ MIXED →
      parse_loop argv1 i args c = Except.ok c1 → c1.convention ≠ MIXED := by
  induction args with
  | nil => intro i c c1 hc h; simp only [parse_loop, Except.ok.injEq] at h; subst h; exact hc
  | cons a rest ih =>
    intro i c c1 hc h
    simp only [parse_loop] at h
    cases hstep : parse_arg argv1 i a c with
    | error code => simp only [hstep] at h; exact absurd h (by simp)
    | ok c2 =>
      simp only [hstep] at h
      refine ih (i + 1) c2 c1 ?_ h
      rcases parse_arg_convention argv1 i a c c2 hstep with e | e
      · rw [e]; exact hc
      · exact read_convention_from_string_ne_mixed argv1 _ e

/-- The target of a parsed command line is never `MIXED`. -/
theorem parse_cmd_line_args_convention (malloc_ok : Bool) (argv : List String)
    (cmd : CommandLine) (h : parse_cmd_line_args malloc_ok argv = Except.ok cmd) :
    cmd.convention ≠ MIXED := by
  unfold parse_cmd_line_args at h
  split_ifs at h
  exact parse_loop_convention _ _ 1 CommandLine.initial cmd (by decide) h

/-- The derived source convention is `NO_CONVENTION` exactly when the three counts
are zero. -/
theorem get_source_convention_none (r : FileReport) :
    get_source_convention r = NO_CONVENTION ↔
      r.cr_count = 0 ∧ r.lf_count = 0 ∧ r.crlf_count = 0 := by
  unfold get_source_convention
  split_ifs <;> simp_all

/-- C4: the decision of `pre_conversion_check`, on the report `r` of its pass
(no output stream, target of the command line, interrupt on a different
ending).  It returns `FILEOP_ERROR` when `r` has an I/O error; otherwise
`SKIPPED_BINARY` when `r` has non-text characters and `binaries` is off;
otherwise `DONE` exactly when the source convention of `r` is `NO_CONVENTION`
(all three counts zero) or the target, the caller's report then being `r`;
otherwise `CAN_CONTINUE` with the caller's report untouched.  For a command
line produced by `parse_cmd_line_args`, a report whose source convention is
`MIXED`, with no error and no binary skip, gives `CAN_CONTINUE`. -/
theorem pre_conversion_check_decision (h : Helpers) (in_stream : Stream) (filename : String)
    (file_report : FileReport) (cmd : CommandLine) :
    let r := h.convert_stream
      { instream := in_stream, outstream := none, dst_convention := cmd.convention,
        interrupt_if_not_like_dst_convention := true,
        interrupt_if_non_text := !cmd.binaries }
    let res := pre_conversion_check h in_stream filename file_report cmd
    (r.error_during_conversion = true →
      res.status = FILEOP_ERROR ∧ res.file_report = file_report) ∧
    (r.error_during_conversion = false →
      r.contains_non_text_chars = true ∧ cmd.binaries = false →
      res.status = SKIPPED_BINARY ∧ res.file_report = file_report) ∧
    (r.error_during_conversion = false →
      ¬ (r.contains_non_text_chars = true ∧ cmd.binaries = false) →
      (res.status = DONE ↔
        get_source_convention r = NO_CONVENTION ∨ get_source_convention r = cmd.convention) ∧
      (res.status = DONE → res.file_report = r) ∧
      (res.status ≠ DONE → res.status = CAN_CONTINUE ∧ res.file_report = file_report)) ∧
    (get_source_convention r = NO_CONVENTION ↔
      r.cr_count = 0 ∧ r.lf_count = 0 ∧ r.crlf_count = 0) ∧
    (∀ (malloc_ok : Bool) (argv : List String),
      parse_cmd_line_args malloc_ok argv = Except.ok cmd →
      r.error_during_conversion = false →
      ¬ (r.contains_non_text_chars = true ∧ cmd.binaries = false) →
      get_source_convention r = MIXED →
      res.status = CAN_CONTINUE ∧ res.file_report = file_report) := by
  intro r res
  have hres : res = pre_conversion_check h in_stream filename file_report cmd := rfl
  have hr : h.convert_stream (pre_conversion_parameters in_stream cmd) = r := rfl
  simp only [pre_conversion_check, hr] at hres
  refine ⟨?_, ?_, ?_, get_source_convention_none r, ?_⟩
  · intro he
    simp [hres, he]
  · rintro he ⟨hn, hb⟩
    simp [hres, he, hn, hb]
  · intro he hn
    have hn1 : (r.contains_non_text_chars && !cmd.binaries) = false := by
      cases h1 : r.contains_non_text_chars <;> cases h2 : cmd.binaries <;> simp_all
    by_cases hs : get_source_convention r = NO_CONVENTION ∨
        get_source_convention r = cmd.convention
    · simp [hres, he, hn1, hs]
    · simp [hres, he, hn1, hs]
  · intro malloc_ok argv hparse he hn hm
    have hn1 : (r.contains_non_text_chars && !cmd.binaries) = false := by
      cases h1 : r.contains_non_text_chars <;> cases h2 : cmd.binaries <;> simp_all
    have hne := parse_cmd_line_args_convention malloc_ok argv cmd hparse
    have hs : ¬ (get_source_convention r = NO_CONVENTION ∨
        get_source_convention r = cmd.convention) := by
      rw [hm]; rintro (e | e)
      · exact absurd e (by decide)
      · exact hne e.symm
    simp [hres, he, hn1, hs]

/-- C4 at a concrete input: `endlines lf a.txt` on a file with one CR and one LF
ending goes on to the rewrite. -/
theorem pre_conversion_check_decision_witness :
    (pre_conversion_check
        (sample_helpers "./.tmp_endlines_1" (sample_report 1 1 0 false false)
          (sample_report 1 1 0 false false))
        (Stream.input "a.txt") "a.txt" (sample_report 0 0 0 false false)
        { CommandLine.initial with
          convention := LF, filenames := ["a.txt"], file_count := 1 }).status = CAN_CONTINUE ∧
    (pre_conversion_check
        (sample_helpers "./.tmp_endlines_1" (sample_report 1 1 0 false false)
          (sample_report 1 1 0 false false))
        (Stream.input "a.txt") "a.txt" (sample_report 0 0 0 false false)
        { CommandLine.initial with
          convention := LF, filenames := ["a.txt"], file_count := 1 }).file_report =
      sample_report 0 0 0 false false :=
  (pre_conversion_check_decision
    (sample_helpers "./.tmp_endlines_1" (sample_report 1 1 0 false false)
      (sample_report 1 1 0 false false))
    (Stream.input "a.txt") "a.txt" (sample_report 0 0 0 false false)
    { CommandLine.initial with
      convention := LF, filenames := ["a.txt"], file_count := 1 }).2.2.2.2
    true ["endlines", "lf", "a.txt"] (by decide) (by decide) (by decide) (by decide)

/-- The exit paths of `convert_one_file`, in source order, each with the
helper outcomes that select it and the status, report and calls it leaves. -/
theorem convert_one_file_paths (h : Helpers) (tmp_filename_base session_tmp_filename : String)
    (filename : String) (statinfo : Stat) (cmd : CommandLine) (file_report : FileReport) :
    let res := convert_one_file h tmp_filename_base session_tmp_filename filename statinfo cmd
      file_report
    let input := Stream.input filename
    let s1 := h.open_input_file_for_conversion filename
    let pre := pre_conversion_check h input filename file_report cmd
    let made := h.make_filename_in_same_location filename
      (session_tmp_filename_after tmp_filename_base h.clock_tv_nsec session_tmp_filename)
    let tmp := made.2
    let s4 := h.open_temporary_file tmp
    let p := full_conversion_parameters input (Stream.temp tmp) cmd
    let full := h.convert_stream p
    let s6 := h.move_temp_file_to_destination tmp filename statinfo
    let t2 := Event.open_input_file_for_conversion filename CAN_CONTINUE :: pre.trace
    let t5 := t2 ++ [Event.rewind input, Event.open_temporary_file tmp CAN_CONTINUE,
      Event.convert_stream p full, Event.fclose input, Event.fclose (Stream.temp tmp)]
    (s1 ≠ CAN_CONTINUE ∧
      res = ⟨s1, file_report, [Event.open_input_file_for_conversion filename s1]⟩) ∨
    (s1 = CAN_CONTINUE ∧ pre.status ≠ CAN_CONTINUE ∧
      res = ⟨pre.status, pre.file_report, t2 ++ [Event.fclose input]⟩) ∨
    (s1 = CAN_CONTINUE ∧ pre.status = CAN_CONTINUE ∧ made.1 ≠ 0 ∧
      res = ⟨FILEOP_ERROR, pre.file_report, t2 ++ [Event.rewind input, Event.fclose input]⟩) ∨
    (s1 = CAN_CONTINUE ∧ pre.status = CAN_CONTINUE ∧ made.1 = 0 ∧ s4 ≠ CAN_CONTINUE ∧
      res = ⟨s4, pre.file_report,
        t2 ++ [Event.rewind input, Event.open_temporary_file tmp s4, Event.fclose input]⟩) ∨
    (s1 = CAN_CONTINUE ∧ pre.status = CAN_CONTINUE ∧ made.1 = 0 ∧ s4 = CAN_CONTINUE ∧
      full.error_during_conversion = true ∧
      res = ⟨FILEOP_ERROR, pre.file_report, t5 ++ [Event.fprintf_stderr
        ("endlines : file access error during conversion of " ++ filename ++ "\n")]⟩) ∨
    (s1 = CAN_CONTINUE ∧ pre.status = CAN_CONTINUE ∧ made.1 = 0 ∧ s4 = CAN_CONTINUE ∧
      full.error_during_conversion = false ∧
      (full.contains_non_text_chars = true ∧ cmd.binaries = false) ∧
      res = ⟨SKIPPED_BINARY, pre.file_report, t5 ++ [Event.remove tmp]⟩) ∨
    (s1 = CAN_CONTINUE ∧ pre.status = CAN_CONTINUE ∧ made.1 = 0 ∧ s4 = CAN_CONTINUE ∧
      full.error_during_conversion = false ∧
      ¬ (full.contains_non_text_chars = true ∧ cmd.binaries = false) ∧ s6 ≠ CAN_CONTINUE ∧
      res = ⟨s6, pre.file_report,
        t5 ++ [Event.move_temp_file_to_destination tmp filename statinfo s6]⟩) ∨
    (s1 = CAN_CONTINUE ∧ pre.status = CAN_CONTINUE ∧ made.1 = 0 ∧ s4 = CAN_CONTINUE ∧
      full.error_during_conversion = false ∧
      ¬ (full.contains_non_text_chars = true ∧ cmd.binaries = false) ∧ s6 = CAN_CONTINUE ∧
      res = ⟨DONE, full,
        t5 ++ Event.move_temp_file_to_destination tmp filename statinfo CAN_CONTINUE ::
          (if cmd.keepdate = true then [Event.utime filename (get_file_times statinfo)]
           else [])⟩) := by
  intro res input s1 pre made tmp s4 p full s6 t2 t5
  have hres : res = convert_one_file h tmp_filename_base session_tmp_filename filename statinfo
    cmd file_report := rfl
  unfold convert_one_file at hres
  simp only at hres
  by_cases h1 : s1 = CAN_CONTINUE
  swap
  · left; exact ⟨h1, by rw [hres, if_pos h1]⟩
  right
  rw [if_neg (not_not.mpr h1)] at hres
  have e1 : h.open_input_file_for_conversion filename = CAN_CONTINUE := h1
  by_cases h2 : pre.status = CAN_CONTINUE
  swap
  · left; refine ⟨h1, h2, ?_⟩; rw [hres, if_pos h2, e1]; simp [t2, t5, pre, input, tmp, made, p, full]
  right
  rw [if_neg (not_not.mpr h2)] at hres
  by_cases h3 : made.1 = 0
  swap
  · left; refine ⟨h1, h2, h3, ?_⟩; rw [hres, if_pos h3, e1]; simp [t2, t5, pre, input, tmp, made, p, full]
  right
  rw [if_neg (not_not.mpr h3)] at hres
  by_cases h4 : s4 = CAN_CONTINUE
  swap
  · left; refine ⟨h1, h2, h3, h4, ?_⟩; rw [hres, if_pos h4, e1]; simp [t2, t5, pre, input, tmp, made, p, full]
  right
  rw [if_neg (not_not.mpr h4)] at hres
  have e4 : h.open_temporary_file tmp = CAN_CONTINUE := h4
  cases h5 : full.error_during_conversion
  swap
  · left; refine ⟨h1, h2, h3, h4, rfl, ?_⟩
    have e5 : full.error_during_conversion = true := h5
    rw [hres, if_pos e5, e1, e4]; simp [t2, t5, pre, input, tmp, made, p, full]
  right
  have e5 : ¬ full.error_during_conversion = true := by rw [h5]; decide
  rw [if_neg e5] at hres
  by_cases h6 : full.contains_non_text_chars = true ∧ cmd.binaries = false
  · left; refine ⟨h1, h2, h3, h4, rfl, h6, ?_⟩
    have e6 : (full.contains_non_text_chars && !cmd.binaries) = true := by
      rw [h6.1, h6.2]; rfl
    rw [hres, if_pos e6, e1, e4]; simp [t2, t5, pre, input, tmp, made, p, full]
  right
  have e6 : ¬ (full.contains_non_text_chars && !cmd.binaries) = true := by
    intro e
    rw [Bool.and_eq_true, Bool.not_eq_true'] at e
    exact h6 e
  rw [if_neg e6] at hres
  by_cases h7 : s6 = CAN_CONTINUE
  swap
  · left; refine ⟨h1, h2, h3, h4, rfl, h6, h7, ?_⟩; rw [hres, if_pos h7, e1, e4]; simp [t2, t5, pre, input, tmp, made, p, full]
  right
  rw [if_neg (not_not.mpr h7)] at hres
  have e7 : h.move_temp_file_to_destination tmp filename statinfo = CAN_CONTINUE := h7
  refine ⟨h1, h2, h3, h4, rfl, h6, h7, ?_⟩
  rw [hres, e1, e4, e7]
  cases cmd.keepdate <;> simp [t2, t5, pre, input, tmp, made, p, full]

/-- The calls of `pre_conversion_check`: one inspection pass without an output
stream, and possibly a line on stderr. -/
theorem pre_conversion_check_calls (h : Helpers) (in_stream : Stream) (filename : String)
    (file_report : FileReport) (cmd : CommandLine) :
    ∀ e ∈ (pre_conversion_check h in_stream filename file_report cmd).trace,
      paths_touched e = [] ∧ is_utime e = false ∧ is_successful_move e = false := by
  intro e he
  unfold pre_conversion_check at he
  simp only at he
  have hp : ∀ r, paths_touched (Event.convert_stream
      (pre_conversion_parameters in_stream cmd) r) = [] := fun _ => rfl
  have hq : ∀ text, paths_touched (Event.fprintf_stderr text) = [] := fun _ => rfl
  split_ifs at he <;> simp at he <;> (try rcases he with rfl | rfl) <;>
    simp [hp, hq, is_utime, is_successful_move]

/-- When `pre_conversion_check` returns `DONE` the report it leaves is the
report of its pass. -/
theorem pre_conversion_check_done (h : Helpers) (in_stream : Stream) (filename : String)
    (file_report : FileReport) (cmd : CommandLine)
    (hs : (pre_conversion_check h in_stream filename file_report cmd).status = DONE) :
    (pre_conversion_check h in_stream filename file_report cmd).file_report =
      h.convert_stream (pre_conversion_parameters in_stream cmd) := by
  unfold pre_conversion_check at hs ⊢
  simp only at hs ⊢
  split_ifs at hs ⊢
  rfl

/-- A move event is a successful move exactly when its result is
`CAN_CONTINUE`. -/
theorem is_successful_move_move (tmp filename : String) (statinfo : Stat)
    (result : FileOp_Status) :
    is_successful_move (Event.move_temp_file_to_destination tmp filename statinfo result) =
      decide (result = CAN_CONTINUE) := by
  cases result <;> rfl

/-- The decision of `pre_conversion_check` as one case analysis on the report
of its pass. -/
theorem pre_conversion_check_status (h : Helpers) (in_stream : Stream) (filename : String)
    (file_report : FileReport) (cmd : CommandLine) :
    (pre_conversion_check h in_stream filename file_report cmd).status =
      (if (h.convert_stream (pre_conversion_parameters in_stream cmd)).error_during_conversion
          = true then FILEOP_ERROR
       else if (h.convert_stream (pre_conversion_parameters in_stream cmd)).contains_non_text_chars
          = true ∧ cmd.binaries = false then SKIPPED_BINARY
       else if get_source_convention (h.convert_stream (pre_conversion_parameters in_stream cmd))
            = NO_CONVENTION ∨
          get_source_convention (h.convert_stream (pre_conversion_parameters in_stream cmd))
            = cmd.convention then DONE
       else CAN_CONTINUE) := by
  unfold pre_conversion_check
  simp only
  split_ifs <;> simp_all

/-- Either no call of `convert_one_file` is a successful move or a `utime` and
every path its calls touch is the temporary path, or the function returns
`DONE` with the full-pass report and its trace ends with the successful move,
followed by `utime` when `keepdate` is set. -/
theorem convert_one_file_untouched_or_moved (h : Helpers)
    (tmp_filename_base session_tmp_filename : String) (filename : String) (statinfo : Stat)
    (cmd : CommandLine) (file_report : FileReport) :
    (∀ e ∈ (convert_one_file h tmp_filename_base session_tmp_filename filename statinfo cmd
        file_report).trace,
      is_successful_move e = false ∧ is_utime e = false ∧
      ∀ path ∈ paths_touched e, path = (h.make_filename_in_same_location filename
        (session_tmp_filename_after tmp_filename_base h.clock_tv_nsec
          session_tmp_filename)).2) ∨
    ((convert_one_file h tmp_filename_base session_tmp_filename filename statinfo cmd
        file_report).status = DONE ∧
      ∃ before tmp,
        (convert_one_file h tmp_filename_base session_tmp_filename filename statinfo cmd
          file_report).trace =
          before ++ Event.move_temp_file_to_destination tmp filename statinfo CAN_CONTINUE ::
            (if cmd.keepdate = true then [Event.utime filename (get_file_times statinfo)]
             else [])) := by
  have hpaths := convert_one_file_paths h tmp_filename_base session_tmp_filename filename
    statinfo cmd file_report
  have hpre : ∀ e ∈ (pre_conversion_check h (Stream.input filename) filename file_report
      cmd).trace, is_successful_move e = false ∧ is_utime e = false ∧
      ∀ path ∈ paths_touched e, path = (h.make_filename_in_same_location filename
        (session_tmp_filename_after tmp_filename_base h.clock_tv_nsec
          session_tmp_filename)).2 := by
    intro e he
    have := pre_conversion_check_calls h (Stream.input filename) filename file_report cmd e he
    refine ⟨this.2.2, this.2.1, ?_⟩
    rw [this.1]
    intro path hp
    exact absurd hp (List.not_mem_nil path)
  simp only at hpaths
  rcases hpaths with ⟨_, hr⟩ | ⟨_, _, hr⟩ | ⟨_, _, _, hr⟩ | ⟨_, _, _, _, hr⟩ |
    ⟨_, _, _, _, _, hr⟩ | ⟨_, _, _, _, _, _, hr⟩ | ⟨_, _, _, _, _, _, h7, hr⟩ |
    ⟨_, _, _, _, _, _, _, hr⟩
  · left
    rw [hr]
    intro e he
    simp only [List.mem_append, List.mem_cons, List.mem_singleton, List.not_mem_nil, or_false,
      or_assoc] at he
    rcases he with rfl
    all_goals first
      | exact hpre e he
      | simp [paths_touched, is_utime, is_successful_move_move, is_successful_move,
          full_conversion_parameters]
  · left
    rw [hr]
    intro e he
    simp only [List.mem_append, List.mem_cons, List.mem_singleton, List.not_mem_nil, or_false,
      or_assoc] at he
    rcases he with rfl | he | rfl
    all_goals first
      | exact hpre e he
      | simp [paths_touched, is_utime, is_successful_move_move, is_successful_move,
          full_conversion_parameters]
  · left
    rw [hr]
    intro e he
    simp only [List.mem_append, List.mem_cons, List.mem_singleton, List.not_mem_nil, or_false,
      or_assoc] at he
    rcases he with rfl | he | rfl | rfl
    all_goals first
      | exact hpre e he
      | simp [paths_touched, is_utime, is_successful_move_move, is_successful_move,
          full_conversion_parameters]
  · left
    rw [hr]
    intro e he
    simp only [List.mem_append, List.mem_cons, List.mem_singleton, List.not_mem_nil, or_false,
      or_assoc] at he
    rcases he with rfl | he | rfl | rfl | rfl
    all_goals first
      | exact hpre e he
      | simp [paths_touched, is_utime, is_successful_move_move, is_successful_move,
          full_conversion_parameters]
  · left
    rw [hr]
    intro e he
    simp only [List.mem_append, List.mem_cons, List.mem_singleton, List.not_mem_nil, or_false,
      or_assoc] at he
    rcases he with rfl | he | rfl | rfl | rfl | rfl | rfl | rfl
    all_goals first
      | exact hpre e he
      | simp [paths_touched, is_utime, is_successful_move_move, is_successful_move,
          full_conversion_parameters]
  · left
    rw [hr]
    intro e he
    simp only [List.mem_append, List.mem_cons, List.mem_singleton, List.not_mem_nil, or_false,
      or_assoc] at he
    rcases he with rfl | he | rfl | rfl | rfl | rfl | rfl | rfl
    all_goals first
      | exact hpre e he
      | simp [paths_touched, is_utime, is_successful_move_move, is_successful_move,
          full_conversion_parameters]
  · left
    rw [hr]
    intro e he
    simp only [List.mem_append, List.mem_cons, List.mem_singleton, List.not_mem_nil, or_false,
      or_assoc] at he
    rcases he with rfl | he | rfl | rfl | rfl | rfl | rfl | rfl
    all_goals first
      | exact hpre e he
      | simp [paths_touched, is_utime, is_successful_move_move, is_successful_move,
          full_conversion_parameters, h7]
  · right
    rw [hr]
    exact ⟨rfl, _, _, rfl⟩

/-- The status `check_one_file` returns is never `CAN_CONTINUE`. -/
theorem check_one_file_status (h : Helpers) (filename : String) (cmd : CommandLine)
    (file_report : FileReport) :
    (check_one_file h filename cmd file_report).status ≠ CAN_CONTINUE := by
  unfold check_one_file
  simp only
  split_ifs with h1 h2 h3
  · exact h1
  · simp
  · simp
  · simp

/-- The status `convert_one_file` returns is never `CAN_CONTINUE`. -/
theorem convert_one_file_status (h : Helpers) (tmp_filename_base session_tmp_filename : String)
    (filename : String) (statinfo : Stat) (cmd : CommandLine) (file_report : FileReport) :
    (convert_one_file h tmp_filename_base session_tmp_filename filename statinfo cmd
      file_report).status ≠ CAN_CONTINUE := by
  have hpaths := convert_one_file_paths h tmp_filename_base session_tmp_filename filename
    statinfo cmd file_report
  simp only at hpaths
  rcases hpaths with ⟨c, hr⟩ | ⟨_, c, hr⟩ | ⟨_, _, _, hr⟩ | ⟨_, _, _, c, hr⟩ |
    ⟨_, _, _, _, _, hr⟩ | ⟨_, _, _, _, _, _, hr⟩ | ⟨_, _, _, _, _, _, c, hr⟩ |
    ⟨_, _, _, _, _, _, _, hr⟩ <;> rw [hr] <;> first | exact c | simp

/-- The status of the per-file operation `walkers_callback` selects is never
`CAN_CONTINUE`. -/
theorem walkers_callback_outcome_status (tmp_filename_base : String) (inv : Invocation)
    (run : Run) :
    (walkers_callback_outcome tmp_filename_base inv run).1.status ≠ CAN_CONTINUE := by
  unfold walkers_callback_outcome
  simp only
  split_ifs
  · simp
  · exact check_one_file_status _ _ _ _
  · exact convert_one_file_status _ _ _ _ _ _ _

/-- C5 (the code at the failing input): the pre-conversion pass finds an LF
ending in a file to be converted to CRLF, the temporary file is opened, and the
full pass reports an I/O error.  `convert_one_file` returns `FILEOP_ERROR`
having opened the temporary file and never removed or moved it: the temporary
file is left behind. -/
theorem convert_one_file_error_keeps_temp :
    (convert_one_file
        (sample_helpers "./.tmp_endlines_1" (sample_report 0 1 0 false false)
          (sample_report 0 0 0 false true))
        ".tmp_endlines_" "" "./a.txt" sample_stat (sample_command_line CRLF false false)
        (sample_report 0 0 0 false false)).status = FILEOP_ERROR ∧
    (convert_one_file
        (sample_helpers "./.tmp_endlines_1" (sample_report 0 1 0 false false)
          (sample_report 0 0 0 false true))
        ".tmp_endlines_" "" "./a.txt" sample_stat (sample_command_line CRLF false false)
        (sample_report 0 0 0 false false)).trace =
      [ Event.open_input_file_for_conversion "./a.txt" CAN_CONTINUE,
        Event.convert_stream
          (pre_conversion_parameters (Stream.input "./a.txt")
            (sample_command_line CRLF false false))
          (sample_report 0 1 0 false false),
        Event.rewind (Stream.input "./a.txt"),
        Event.open_temporary_file "./.tmp_endlines_1" CAN_CONTINUE,
        Event.convert_stream
          (full_conversion_parameters (Stream.input "./a.txt")
            (Stream.temp "./.tmp_endlines_1") (sample_command_line CRLF false false))
          (sample_report 0 0 0 false true),
        Event.fclose (Stream.input "./a.txt"),
        Event.fclose (Stream.temp "./.tmp_endlines_1"),
        Event.fprintf_stderr "endlines : file access error during conversion of ./a.txt\n" ] ∧
    Event.remove "./.tmp_endlines_1" ∉
      (convert_one_file
        (sample_helpers "./.tmp_endlines_1" (sample_report 0 1 0 false false)
          (sample_report 0 0 0 false true))
        ".tmp_endlines_" "" "./a.txt" sample_stat (sample_command_line CRLF false false)
        (sample_report 0 0 0 false false)).trace ∧
    temp_file_exists "./.tmp_endlines_1"
      (convert_one_file
        (sample_helpers "./.tmp_endlines_1" (sample_report 0 1 0 false false)
          (sample_report 0 0 0 false true))
        ".tmp_endlines_" "" "./a.txt" sample_stat (sample_command_line CRLF false false)
        (sample_report 0 0 0 false false)).trace false = true := by
  decide

/-- C6 (the code at the failing input): `endlines crlf -k ./a.txt` on a file
without line endings.  The pre-conversion pass returns `DONE`, and
`convert_one_file` returns `DONE` after opening, inspecting and closing the
input, without any call of `utime`: the times of the pre-stat are not
restored. -/
theorem convert_one_file_keepdate_skipped_rewrite :
    (sample_command_line CRLF false true).keepdate = true ∧
    (convert_one_file
        (sample_helpers "./.tmp_endlines_1" (sample_report 0 0 0 false false)
          (sample_report 0 0 0 false false))
        ".tmp_endlines_" "" "./a.txt" sample_stat (sample_command_line CRLF false true)
        (sample_report 0 0 0 false false)).status = DONE ∧
    (convert_one_file
        (sample_helpers "./.tmp_endlines_1" (sample_report 0 0 0 false false)
          (sample_report 0 0 0 false false))
        ".tmp_endlines_" "" "./a.txt" sample_stat (sample_command_line CRLF false true)
        (sample_report 0 0 0 false false)).trace =
      [ Event.open_input_file_for_conversion "./a.txt" CAN_CONTINUE,
        Event.convert_stream
          (pre_conversion_parameters (Stream.input "./a.txt")
            (sample_command_line CRLF false true))
          (sample_report 0 0 0 false false),
        Event.fclose (Stream.input "./a.txt") ] ∧
    Event.utime "./a.txt" (get_file_times sample_stat) ∉
      (convert_one_file
        (sample_helpers "./.tmp_endlines_1" (sample_report 0 0 0 false false)
          (sample_report 0 0 0 false false))
        ".tmp_endlines_" "" "./a.txt" sample_stat (sample_command_line CRLF false true)
        (sample_report 0 0 0 false false)).trace := by
  decide

/-- The two `DONE` returns of `convert_one_file` with `keepdate` set.  After a
successful `move_temp_file_to_destination` its last call, right after the move,
is `utime` on the file with the access and modification times of the pre-stat;
when the pre-conversion pass returns `DONE` it returns with the pre-pass report
after closing the input, having called neither `utime` nor anything that
touches a path. -/
theorem convert_one_file_keepdate (h : Helpers)
    (tmp_filename_base session_tmp_filename : String) (filename : String) (statinfo : Stat)
    (cmd : CommandLine) (file_report : FileReport) (hk : cmd.keepdate = true) :
    ((∃ e ∈ (convert_one_file h tmp_filename_base session_tmp_filename filename statinfo cmd
        file_report).trace, is_successful_move e = true) →
      (convert_one_file h tmp_filename_base session_tmp_filename filename statinfo cmd
        file_report).status = DONE ∧
      ∃ before tmp,
        (convert_one_file h tmp_filename_base session_tmp_filename filename statinfo cmd
          file_report).trace =
          before ++ [Event.move_temp_file_to_destination tmp filename statinfo CAN_CONTINUE,
            Event.utime filename
              { actime := statinfo.st_atime, modtime := statinfo.st_mtime }]) ∧
    (h.open_input_file_for_conversion filename = CAN_CONTINUE →
      (pre_conversion_check h (Stream.input filename) filename file_report cmd).status = DONE →
      (convert_one_file h tmp_filename_base session_tmp_filename filename statinfo cmd
        file_report).status = DONE ∧
      (convert_one_file h tmp_filename_base session_tmp_filename filename statinfo cmd
        file_report).file_report =
        h.convert_stream
          { instream := Stream.input filename, outstream := none,
            dst_convention := cmd.convention,
            interrupt_if_not_like_dst_convention := true,
            interrupt_if_non_text := !cmd.binaries } ∧
      ∀ e ∈ (convert_one_file h tmp_filename_base session_tmp_filename filename statinfo cmd
        file_report).trace, is_utime e = false ∧ paths_touched e = []) := by
  constructor
  · rintro ⟨e, he, hmove⟩
    rcases convert_one_file_untouched_or_moved h tmp_filename_base session_tmp_filename
      filename statinfo cmd file_report with hall | ⟨hst, before, tmp, htr⟩
    · rw [(hall e he).1] at hmove
      exact absurd hmove (by decide)
    · refine ⟨hst, before, tmp, ?_⟩
      rw [htr, if_pos hk]
      rfl
  · intro h1 h2
    have hpaths := convert_one_file_paths h tmp_filename_base session_tmp_filename filename
      statinfo cmd file_report
    have hpre := pre_conversion_check_calls h (Stream.input filename) filename file_report cmd
    have hdone := pre_conversion_check_done h (Stream.input filename) filename file_report cmd h2
    simp only at hpaths
    have hne : (pre_conversion_check h (Stream.input filename) filename file_report
        cmd).status ≠ CAN_CONTINUE := by rw [h2]; decide
    rcases hpaths with ⟨c, _⟩ | ⟨_, _, hr⟩ | ⟨_, c, _⟩ | ⟨_, c, _⟩ | ⟨_, c, _⟩ | ⟨_, c, _⟩ |
      ⟨_, c, _⟩ | ⟨_, c, _⟩
    · exact absurd h1 c
    · rw [hr]
      refine ⟨h2, hdone, ?_⟩
      intro e he
      simp only [List.mem_append, List.mem_cons, List.mem_singleton, List.not_mem_nil,
        or_false, or_assoc] at he
      rcases he with rfl | he | rfl
      · exact ⟨rfl, rfl⟩
      · exact ⟨(hpre e he).2.1, (hpre e he).1⟩
      · exact ⟨rfl, rfl⟩
    all_goals exact absurd c hne

/-- A file with a CR ending rewritten to LF with `keepdate` set: the trace ends
with the move and `utime`. -/
theorem convert_one_file_keepdate_witness :
    ((∃ e ∈ (convert_one_file
        (sample_helpers "./.tmp_endlines_1" (sample_report 1 0 0 false false)
          (sample_report 1 0 0 false false))
        ".tmp_endlines_" "" "./a.txt" sample_stat (sample_command_line LF false true)
        (sample_report 0 0 0 false false)).trace, is_successful_move e = true) ∧
      (convert_one_file
        (sample_helpers "./.tmp_endlines_1" (sample_report 1 0 0 false false)
          (sample_report 1 0 0 false false))
        ".tmp_endlines_" "" "./a.txt" sample_stat (sample_command_line LF false true)
        (sample_report 0 0 0 false false)).status = DONE ∧
      ∃ before tmp,
        (convert_one_file
          (sample_helpers "./.tmp_endlines_1" (sample_report 1 0 0 false false)
            (sample_report 1 0 0 false false))
          ".tmp_endlines_" "" "./a.txt" sample_stat (sample_command_line LF false true)
          (sample_report 0 0 0 false false)).trace =
          before ++ [Event.move_temp_file_to_destination tmp "./a.txt" sample_stat CAN_CONTINUE,
            Event.utime "./a.txt" { actime := 1000, modtime := 900 }]) :=
  have hex : ∃ e ∈ (convert_one_file
        (sample_helpers "./.tmp_endlines_1" (sample_report 1 0 0 false false)
          (sample_report 1 0 0 false false))
        ".tmp_endlines_" "" "./a.txt" sample_stat (sample_command_line LF false true)
        (sample_report 0 0 0 false false)).trace, is_successful_move e = true :=
    ⟨Event.move_temp_file_to_destination "./.tmp_endlines_1" "./a.txt" sample_stat CAN_CONTINUE,
      by decide, rfl⟩
  ⟨hex, (convert_one_file_keepdate
    (sample_helpers "./.tmp_endlines_1" (sample_report 1 0 0 false false)
      (sample_report 1 0 0 false false))
    ".tmp_endlines_" "" "./a.txt" sample_stat (sample_command_line LF false true)
    (sample_report 0 0 0 false false) rfl).1 hex⟩

/-- The calls of `convert_one_file` on a `FILEOP_ERROR` or `SKIPPED_BINARY`
return: none is a successful `move_temp_file_to_destination` or a `utime`, and
every path they create, write or remove is the temporary path built by
`make_filename_in_same_location`; the file is untouched when that path is not
the file's own.  With `binaries` off, a report with non-text characters and no
I/O error, from the pre-conversion pass or from the full pass, gives
`SKIPPED_BINARY`, without a successful move. -/
theorem convert_one_file_failure_leaves_target (h : Helpers)
    (tmp_filename_base session_tmp_filename : String) (filename : String) (statinfo : Stat)
    (cmd : CommandLine) (file_report : FileReport) :
    let res := convert_one_file h tmp_filename_base session_tmp_filename filename statinfo cmd
      file_report
    let tmp := (h.make_filename_in_same_location filename
      (session_tmp_filename_after tmp_filename_base h.clock_tv_nsec session_tmp_filename)).2
    let pre := h.convert_stream
      { instream := Stream.input filename, outstream := none, dst_convention := cmd.convention,
        interrupt_if_not_like_dst_convention := true, interrupt_if_non_text := !cmd.binaries }
    let full := h.convert_stream
      { instream := Stream.input filename, outstream := some (Stream.temp tmp),
        dst_convention := cmd.convention, interrupt_if_not_like_dst_convention := false,
        interrupt_if_non_text := !cmd.binaries }
    (res.status = FILEOP_ERROR ∨ res.status = SKIPPED_BINARY →
      (∀ e ∈ res.trace, is_successful_move e = false ∧ is_utime e = false) ∧
      (∀ e ∈ res.trace, ∀ path ∈ paths_touched e, path = tmp) ∧
      (tmp ≠ filename → ∀ e ∈ res.trace, filename ∉ paths_touched e)) ∧
    (cmd.binaries = false → h.open_input_file_for_conversion filename = CAN_CONTINUE →
      pre.error_during_conversion = false → pre.contains_non_text_chars = true →
      res.status = SKIPPED_BINARY ∧ ∀ e ∈ res.trace, is_successful_move e = false) ∧
    (cmd.binaries = false → h.open_input_file_for_conversion filename = CAN_CONTINUE →
      (pre_conversion_check h (Stream.input filename) filename file_report cmd).status
        = CAN_CONTINUE →
      (h.make_filename_in_same_location filename
        (session_tmp_filename_after tmp_filename_base h.clock_tv_nsec
          session_tmp_filename)).1 = 0 →
      h.open_temporary_file tmp = CAN_CONTINUE →
      full.error_during_conversion = false → full.contains_non_text_chars = true →
      res.status = SKIPPED_BINARY ∧ ∀ e ∈ res.trace, is_successful_move e = false) := by
  intro res tmp pre full
  have hcases := convert_one_file_untouched_or_moved h tmp_filename_base session_tmp_filename
    filename statinfo cmd file_report
  have hfail : res.status = FILEOP_ERROR ∨ res.status = SKIPPED_BINARY →
      ∀ e ∈ res.trace, is_successful_move e = false ∧ is_utime e = false ∧
        ∀ path ∈ paths_touched e, path = tmp := by
    intro hst
    rcases hcases with hall | ⟨hdone, -⟩
    · exact hall
    · have e1 : res.status = DONE := hdone
      rcases hst with e2 | e2 <;> rw [e1] at e2 <;> exact absurd e2 (by decide)
  have hpaths := convert_one_file_paths h tmp_filename_base session_tmp_filename filename
    statinfo cmd file_report
  simp only at hpaths
  refine ⟨?_, ?_, ?_⟩
  · intro hst
    refine ⟨fun e he => ⟨(hfail hst e he).1, (hfail hst e he).2.1⟩,
      fun e he => (hfail hst e he).2.2, ?_⟩
    intro hne e he hmem
    exact hne ((hfail hst e he).2.2 filename hmem).symm
  · intro hb h1 herr hnt
    have hs : (pre_conversion_check h (Stream.input filename) filename file_report cmd).status
        = SKIPPED_BINARY := by
      rw [pre_conversion_check_status]
      have herr1 : (h.convert_stream (pre_conversion_parameters (Stream.input filename)
          cmd)).error_during_conversion = false := herr
      have hnt1 : (h.convert_stream (pre_conversion_parameters (Stream.input filename)
          cmd)).contains_non_text_chars = true := hnt
      simp [herr1, hnt1, hb]
    have hst : res.status = SKIPPED_BINARY := by
      rcases hpaths with ⟨c, _⟩ | ⟨_, _, hr⟩ | ⟨_, c, _⟩ | ⟨_, c, _⟩ | ⟨_, c, _⟩ | ⟨_, c, _⟩ |
        ⟨_, c, _⟩ | ⟨_, c, _⟩
      · exact absurd h1 c
      · show (convert_one_file h tmp_filename_base session_tmp_filename filename statinfo cmd
          file_report).status = SKIPPED_BINARY
        rw [hr]; exact hs
      all_goals (rw [hs] at c; exact absurd c (by decide))
    exact ⟨hst, fun e he => (hfail (Or.inr hst) e he).1⟩
  · intro hb h1 h2 h3 h4 herr hnt
    have hst : res.status = SKIPPED_BINARY := by
      have herr1 : ¬ (h.convert_stream (full_conversion_parameters (Stream.input filename)
          (Stream.temp tmp) cmd)).error_during_conversion = true := by
        intro c
        have c1 : full.error_during_conversion = true := c
        rw [herr] at c1
        exact absurd c1 (by decide)
      have hnt1 : (h.convert_stream (full_conversion_parameters (Stream.input filename)
          (Stream.temp tmp) cmd)).contains_non_text_chars = true ∧ cmd.binaries = false :=
        ⟨hnt, hb⟩
      rcases hpaths with ⟨c, _⟩ | ⟨_, c, _⟩ | ⟨_, _, c, _⟩ | ⟨_, _, _, c, _⟩ |
        ⟨_, _, _, _, c, _⟩ | ⟨_, _, _, _, _, _, hr⟩ | ⟨_, _, _, _, _, c, _⟩ |
        ⟨_, _, _, _, _, c, _⟩
      · exact absurd h1 c
      · exact absurd h2 c
      · exact absurd h3 c
      · exact absurd h4 c
      · exact absurd c herr1
      · show (convert_one_file h tmp_filename_base session_tmp_filename filename statinfo cmd
          file_report).status = SKIPPED_BINARY
        rw [hr]
      · exact absurd hnt1 c
      · exact absurd hnt1 c
    exact ⟨hst, fun e he => (hfail (Or.inr hst) e he).1⟩

/-- A file whose pre-conversion pass meets a non-text byte, with `binaries`
off. -/
theorem convert_one_file_failure_leaves_target_witness :
    (convert_one_file
      (sample_helpers "./.tmp_endlines_1" (sample_report 0 0 0 true false)
        (sample_report 0 0 0 true false))
      ".tmp_endlines_" "" "./a.txt" sample_stat (sample_command_line LF false false)
      (sample_report 0 0 0 false false)).status = SKIPPED_BINARY ∧
    ∀ e ∈ (convert_one_file
      (sample_helpers "./.tmp_endlines_1" (sample_report 0 0 0 true false)
        (sample_report 0 0 0 true false))
      ".tmp_endlines_" "" "./a.txt" sample_stat (sample_command_line LF false false)
      (sample_report 0 0 0 false false)).trace, is_successful_move e = false :=
  (convert_one_file_failure_leaves_target
    (sample_helpers "./.tmp_endlines_1" (sample_report 0 0 0 true false)
      (sample_report 0 0 0 true false))
    ".tmp_endlines_" "" "./a.txt" sample_stat (sample_command_line LF false false)
    (sample_report 0 0 0 false false)).2.1 rfl rfl rfl rfl

/-- C7 (the code at the failing input): the file to convert is
`./.tmp_endlines_1`, the path `make_filename_in_same_location` builds from the
session temporary name `.tmp_endlines_1` (a temporary file left in the
directory and met again by the walker).  `convert_one_file` never compares the
two paths.  When the full pass reports an I/O error it returns `FILEOP_ERROR`
after `open_temporary_file` has opened the file itself for writing; when the
full pass reports a non-text character with `binaries` off it returns
`SKIPPED_BINARY` after `remove` on the file itself. -/
theorem convert_one_file_temp_path_is_target :
    (convert_one_file
        (sample_helpers "./.tmp_endlines_1" (sample_report 0 1 0 false false)
          (sample_report 0 0 0 false true))
        ".tmp_endlines_" ".tmp_endlines_1" "./.tmp_endlines_1" sample_stat
        (sample_command_line CRLF false false) (sample_report 0 0 0 false false)).status =
      FILEOP_ERROR ∧
    Event.open_temporary_file "./.tmp_endlines_1" CAN_CONTINUE ∈
      (convert_one_file
        (sample_helpers "./.tmp_endlines_1" (sample_report 0 1 0 false false)
          (sample_report 0 0 0 false true))
        ".tmp_endlines_" ".tmp_endlines_1" "./.tmp_endlines_1" sample_stat
        (sample_command_line CRLF false false) (sample_report 0 0 0 false false)).trace ∧
    (∃ e ∈ (convert_one_file
        (sample_helpers "./.tmp_endlines_1" (sample_report 0 1 0 false false)
          (sample_report 0 0 0 false true))
        ".tmp_endlines_" ".tmp_endlines_1" "./.tmp_endlines_1" sample_stat
        (sample_command_line CRLF false false) (sample_report 0 0 0 false false)).trace,
      "./.tmp_endlines_1" ∈ paths_touched e) ∧
    (convert_one_file
        (sample_helpers "./.tmp_endlines_1" (sample_report 0 1 0 false false)
          (sample_report 0 1 0 true false))
        ".tmp_endlines_" ".tmp_endlines_1" "./.tmp_endlines_1" sample_stat
        (sample_command_line CRLF false false) (sample_report 0 0 0 false false)).status =
      SKIPPED_BINARY ∧
    Event.remove "./.tmp_endlines_1" ∈
      (convert_one_file
        (sample_helpers "./.tmp_endlines_1" (sample_report 0 1 0 false false)
          (sample_report 0 1 0 true false))
        ".tmp_endlines_" ".tmp_endlines_1" "./.tmp_endlines_1" sample_stat
        (sample_command_line CRLF false false) (sample_report 0 0 0 false false)).trace := by
  decide

/-- C8: `CAN_CONTINUE` never escapes the per-file operations.  For all helper
outcomes and every command line, `convert_one_file` and `check_one_file` return
one of `DONE`, `SKIPPED_BINARY`, `FILEOP_ERROR`, and `walkers_callback` leaves
`outcome_totals[CAN_CONTINUE]` as it was. -/
theorem can_continue_never_escapes (h : Helpers)
    (tmp_filename_base session_tmp_filename : String) (filename : String) (statinfo : Stat)
    (cmd : CommandLine) (file_report : FileReport) (inv : Invocation) (run : Run) :
    ((convert_one_file h tmp_filename_base session_tmp_filename filename statinfo cmd
        file_report).status = DONE ∨
      (convert_one_file h tmp_filename_base session_tmp_filename filename statinfo cmd
        file_report).status = SKIPPED_BINARY ∨
      (convert_one_file h tmp_filename_base session_tmp_filename filename statinfo cmd
        file_report).status = FILEOP_ERROR) ∧
    (convert_one_file h tmp_filename_base session_tmp_filename filename statinfo cmd
      file_report).status ≠ CAN_CONTINUE ∧
    ((check_one_file h filename cmd file_report).status = DONE ∨
      (check_one_file h filename cmd file_report).status = SKIPPED_BINARY ∨
      (check_one_file h filename cmd file_report).status = FILEOP_ERROR) ∧
    (check_one_file h filename cmd file_report).status ≠ CAN_CONTINUE ∧
    (walkers_callback tmp_filename_base inv run).accumulator.outcome_totals CAN_CONTINUE =
      run.accumulator.outcome_totals CAN_CONTINUE := by
  have h1 := convert_one_file_status h tmp_filename_base session_tmp_filename filename statinfo
    cmd file_report
  have h2 := check_one_file_status h filename cmd file_report
  have h3 := walkers_callback_outcome_status tmp_filename_base inv run
  refine ⟨?_, h1, ?_, h2, ?_⟩
  · revert h1
    cases (convert_one_file h tmp_filename_base session_tmp_filename filename statinfo cmd
      file_report).status <;> simp
  · revert h2
    cases (check_one_file h filename cmd file_report).status <;> simp
  · simp only [walkers_callback, increment]
    rw [if_neg (fun e => h3 e.symm)]

/-- C9 (the code at the failing input): `endlines check` with no path.  `main`
announces a dry run and calls the engine on stdin with stdout as the output
stream (not a null one) and `NO_CONVENTION` as the target. For the three
targets it passes stdin, stdout and the target; in every streaming call both
interrupt flags are off. -/
theorem main_streaming_check_passes_stdout :
    main true ["endlines", "check"] =
      MainOutcome.convert_stream ["endlines : dry run, scanning standard input\n"]
        { instream := Stream.stdin, outstream := some Stream.stdout,
          dst_convention := NO_CONVENTION, interrupt_if_not_like_dst_convention := false,
          interrupt_if_non_text := false } ∧
    main true ["endlines", "lf", "-q"] =
      MainOutcome.convert_stream []
        { instream := Stream.stdin, outstream := some Stream.stdout,
          dst_convention := LF, interrupt_if_not_like_dst_convention := false,
          interrupt_if_non_text := false } ∧
    main true ["endlines", "crlf"] =
      MainOutcome.convert_stream ["Converting standard input to Windows (CR-LF)\n"]
        { instream := Stream.stdin, outstream := some Stream.stdout,
          dst_convention := CRLF, interrupt_if_not_like_dst_convention := false,
          interrupt_if_non_text := false } ∧
    main true ["endlines", "oldmac"] =
      MainOutcome.convert_stream ["Converting standard input to Legacy Mac (CR)\n"]
        { instream := Stream.stdin, outstream := some Stream.stdout,
          dst_convention := CR, interrupt_if_not_like_dst_convention := false,
          interrupt_if_non_text := false } ∧
    ∀ (malloc_ok : Bool) (argv : List String) (printed : List String)
      (p : ConversionParameters),
      main malloc_ok argv = MainOutcome.convert_stream printed p →
      p.instream = Stream.stdin ∧ p.outstream = some Stream.stdout ∧
      p.interrupt_if_non_text = false ∧ p.interrupt_if_not_like_dst_convention = false ∧
      ∃ cmd, parse_cmd_line_args malloc_ok argv = Except.ok cmd ∧ cmd.file_count = 0 ∧
        p.dst_convention = cmd.convention := by
  refine ⟨by decide, by decide, by decide, by decide, ?_⟩
  intro malloc_ok argv printed p hmain
  unfold main at hmain
  split_ifs at hmain
  cases hp : parse_cmd_line_args malloc_ok argv with
  | error code => simp [hp] at hmain
  | ok cmd =>
    simp only [hp] at hmain
    split_ifs at hmain with hc
    all_goals
      simp only [MainOutcome.convert_stream.injEq] at hmain
      obtain ⟨-, rfl⟩ := hmain
      exact ⟨rfl, rfl, rfl, rfl, cmd, rfl, by omega, rfl⟩

end Endlines
